import Mathlib

/-!
Shallow embedding of the concurrency core of the `ab` load generator
(src/main.rs): work distribution, the two protocol executors, the
result aggregator and the summary computation, together with theorems
about the claims of the specification.

Modelling conventions:
* machine integers (`usize`, `u64`, `u16`) become `Nat`;
* durations are measured in integer milliseconds (`Duration::as_millis`)
  except for the wall-clock time used by the RPS computation, which the
  source reads as seconds (`as_secs_f64`) and which we model as `ℚ`;
* the network is an explicit environment value: each executor receives
  the outcome every fallible I/O operation would produce together with
  the value `start.elapsed()` would return at each point the source
  reads the timer;
* `HashMap` tallies become total functions into `Nat` (count of each key);
* the HDR histogram, used only through order-insensitive queries
  (mean/min/max/percentiles), becomes the multiset of recorded samples.
-/

/-- One Rust `RequestResult` (src/main.rs lines 66-72).  `duration` is in
milliseconds, `status_code` is the numeric HTTP status. -/
structure RequestResult where
  duration : Nat
  success : Bool
  status_code : Option Nat
  error : Option String
deriving DecidableEq, Repr

/-- Ghost instrumentation of one executor call: whether a network
operation was attempted, and whether the HTTP response body was drained. -/
structure ExecTrace where
  networkAttempted : Bool
  bodyDrained : Bool
deriving DecidableEq, Repr

/-- The HTTP method enumeration (`reqwest::Method` values used by the
source, lines 84-90). -/
inductive Method where
  | GET | POST | PUT | DELETE | PATCH | HEAD | OPTIONS
deriving DecidableEq, Repr

/-- Rust's `str::to_uppercase`, modelled character by character (the
method strings compared against are all ASCII, where the two coincide). -/
def toUpperAscii (s : String) : String :=
  ⟨s.data.map Char.toUpper⟩

/-- The `match method_str.to_uppercase().as_str()` of src/main.rs lines
83-99: decode a method string, `none` for the unsupported-method arm. -/
def resolveMethod (s : String) : Option Method :=
  match toUpperAscii s with
  | "GET" => some Method.GET
  | "POST" => some Method.POST
  | "PUT" => some Method.PUT
  | "DELETE" => some Method.DELETE
  | "PATCH" => some Method.PATCH
  | "HEAD" => some Method.HEAD
  | "OPTIONS" => some Method.OPTIONS
  | _ => none

/-- Environment of one HTTP call: the outcome `request_builder.send()`
would produce (transport-error message, or the response's status code),
and the values `start.elapsed()` would return at each program point.
`tResp` is the reading taken at line 115 (right after the response
arrives, before the body is read); `tDrained` is what the timer shows
once `response.bytes()` has completed at line 117; `tErr` and
`tNoMethod` are the readings on the transport-error arm (line 127) and
the unsupported-method arm (line 93). -/
structure HttpEnv where
  outcome : Except String Nat
  tResp : Nat
  tDrained : Nat
  tErr : Nat
  tNoMethod : Nat

/-- `status.is_success()` of reqwest: the 2xx class. -/
def statusIsSuccess (s : Nat) : Bool :=
  decide (200 ≤ s) && decide (s < 300)

/-- Shallow embedding of `make_http_request` (src/main.rs lines 75-133),
paired with its ghost trace.  Mirrors the source: unsupported methods
return before any network call; on a response the timer is read at line
115 and the body is drained afterwards at line 117; transport errors
carry no status code. -/
def make_http_request (method_str : String) (env : HttpEnv) :
    RequestResult × ExecTrace :=
  match resolveMethod method_str with
  | none =>
    (⟨env.tNoMethod, false, none, some ("不支持的HTTP方法: " ++ method_str)⟩,
     ⟨false, false⟩)
  | some _ =>
    match env.outcome with
    | Except.ok status =>
      let success := statusIsSuccess status
      (⟨env.tResp, success, some status,
        if success then none else some ("HTTP Status: " ++ toString status)⟩,
       ⟨true, true⟩)
    | Except.error e =>
      (⟨env.tErr, false, none, some e⟩, ⟨true, false⟩)

/-- The variant of the HTTP executor that the specification's words
describe ("fully drain the response body before stopping the timer"):
identical to `make_http_request` except that on the response arm the
stored duration is the timer reading taken after the body drain. -/
def make_http_request_specDrain (method_str : String) (env : HttpEnv) :
    RequestResult × ExecTrace :=
  match resolveMethod method_str with
  | none =>
    (⟨env.tNoMethod, false, none, some ("不支持的HTTP方法: " ++ method_str)⟩,
     ⟨false, false⟩)
  | some _ =>
    match env.outcome with
    | Except.ok status =>
      let success := statusIsSuccess status
      (⟨env.tDrained, success, some status,
        if success then none else some ("HTTP Status: " ++ toString status)⟩,
       ⟨true, true⟩)
    | Except.error e =>
      (⟨env.tErr, false, none, some e⟩, ⟨true, false⟩)

/-- Environment of one WebSocket session: the outcomes of `Url::parse`,
`connect_async` and `ws_stream.send`, and the timer readings at the
points the source reads it (lines 145, 197, 163, 178, 190). -/
structure WsEnv where
  urlParse : Except String Unit
  connect : Except String Unit
  sendOutcome : Except String Unit
  tParseErr : Nat
  tConnErr : Nat
  tSendErr : Nat
  tHold : Nat
  tClose : Nat

/-- Shallow embedding of `make_websocket_request` (src/main.rs lines
136-204), paired with its ghost trace.  A malformed URL fails before any
connection attempt; a send is attempted only when a message is
configured; every arm carries `status_code = none`. -/
def make_websocket_request (message : Option String) (duration_secs : Option Nat)
    (env : WsEnv) : RequestResult × ExecTrace :=
  match env.urlParse with
  | Except.error e =>
    (⟨env.tParseErr, false, none, some ("URL解析错误: " ++ e)⟩, ⟨false, false⟩)
  | Except.ok _ =>
    match env.connect with
    | Except.error e =>
      (⟨env.tConnErr, false, none, some ("WebSocket连接失败: " ++ e)⟩,
       ⟨true, false⟩)
    | Except.ok _ =>
      match message, env.sendOutcome with
      | some _, Except.error e =>
        (⟨env.tSendErr, false, none, some ("WebSocket消息发送失败: " ++ e)⟩,
         ⟨true, false⟩)
      | _, _ =>
        match duration_secs with
        | some _ => (⟨env.tHold, true, none, none⟩, ⟨true, false⟩)
        | none => (⟨env.tClose, true, none, none⟩, ⟨true, false⟩)

/-- `cli.method.to_uppercase() == "WS"` (src/main.rs line 221). -/
def isWebsocket (method : String) : Bool :=
  toUpperAscii method == "WS"

/-- One work unit as a worker executes it (src/main.rs lines 276-300):
dispatch on the protocol selector, then run the matching executor. -/
def runWorkUnit (method : String) (ws_message : Option String)
    (ws_duration : Option Nat) (henv : HttpEnv) (wenv : WsEnv) :
    RequestResult × ExecTrace :=
  if isWebsocket method then
    make_websocket_request ws_message ws_duration wenv
  else
    make_http_request method henv

/-- The per-worker share computed at src/main.rs lines 256-269:
`requests_per_worker + (if i < remainder_requests { 1 } else { 0 })`
for each worker index `i` in `0..concurrency`. -/
def distribute (requests concurrency : Nat) : List Nat :=
  (List.range concurrency).map
    (fun i => requests / concurrency +
      (if i < requests % concurrency then 1 else 0))

/-- The configuration errors reported at src/main.rs lines 229-236. -/
inductive ConfigError where
  | zeroRequests
  | zeroConcurrency
deriving DecidableEq, Repr

/-- The pre-dispatch phase of `main` (src/main.rs lines 229-273): reject
a zero request count, then a zero concurrency, and otherwise produce the
per-worker shares of the workers that are actually spawned (a worker
whose share is 0 is skipped at lines 271-273). -/
def plan (requests concurrency : Nat) : Except ConfigError (List Nat) :=
  if requests = 0 then Except.error ConfigError.zeroRequests
  else if concurrency = 0 then Except.error ConfigError.zeroConcurrency
  else Except.ok ((distribute requests concurrency).filter (fun w => w ≠ 0))

/-- The worker shares a plan spawns; none when the plan aborted with a
configuration error before dispatch. -/
def spawnedWorkers (p : Except ConfigError (List Nat)) : List Nat :=
  match p with
  | Except.ok l => l
  | Except.error _ => []

/-- Aggregator state (src/main.rs lines 307-311): the histogram as the
multiset of its recorded millisecond samples, the two running counters,
and the two `HashMap` tallies as count functions. -/
structure AggState where
  histogram : Multiset Nat
  successful_requests : Nat
  failed_requests : Nat
  error_messages : String → Nat
  http_status_code_counts : Nat → Nat

/-- `*map.entry(k).or_insert(0) += 1`: add one to the tally of key `k`. -/
def bump {α : Type} [DecidableEq α] (f : α → Nat) (k : α) : α → Nat :=
  fun x => if x = k then f x + 1 else f x

/-- The sample the aggregator records for a result (src/main.rs lines
317-321): the millisecond duration, or 1 when it is 0. -/
def clampMs (r : RequestResult) : Nat :=
  if r.duration > 0 then r.duration else 1

/-- One iteration of the aggregator's receive loop (src/main.rs lines
313-338) applied to one received `RequestResult`. -/
def aggStep (st : AggState) (r : RequestResult) : AggState :=
  if r.success then
    { histogram := clampMs r ::ₘ st.histogram
      successful_requests := st.successful_requests + 1
      failed_requests := st.failed_requests
      error_messages := st.error_messages
      http_status_code_counts :=
        match r.status_code with
        | some code => bump st.http_status_code_counts code
        | none => st.http_status_code_counts }
  else
    { histogram := st.histogram
      successful_requests := st.successful_requests
      failed_requests := st.failed_requests + 1
      error_messages :=
        match r.error with
        | some msg => bump st.error_messages msg
        | none => bump st.error_messages "未知错误"
      http_status_code_counts :=
        match r.status_code with
        | some code => bump st.http_status_code_counts code
        | none => st.http_status_code_counts }

/-- The freshly initialised aggregator state (src/main.rs lines 307-311):
empty histogram, zero counters, empty tallies. -/
def initAgg : AggState :=
  { histogram := 0
    successful_requests := 0
    failed_requests := 0
    error_messages := fun _ => 0
    http_status_code_counts := fun _ => 0 }

/-- The aggregator's receive loop over the whole stream of received
results, in arrival order. -/
def aggregate (l : List RequestResult) : AggState :=
  l.foldl aggStep initAgg

/-- One spawned worker task as seen at join time: the number of work
units it was assigned, the results it delivered to the channel in order,
and whether `handle.await` reported abnormal termination.  A task body
is exactly the send loop (src/main.rs lines 275-301), so a normally
terminating worker has delivered one result per assigned unit, and an
abnormal termination (a panic inside an iteration) cut the loop short. -/
structure WorkerRun where
  assigned : Nat
  delivered : List RequestResult
  abnormal : Bool
deriving DecidableEq

/-- Well-formedness of a worker run under the source's task structure:
normal termination delivers exactly `assigned` results, abnormal
termination strictly fewer. -/
def workerWF (w : WorkerRun) : Bool :=
  if w.abnormal then decide (w.delivered.length < w.assigned)
  else decide (w.delivered.length = w.assigned)

/-- Every result that reached the channel, worker by worker (any
interleaving is a permutation of this list). -/
def allResults (ws : List WorkerRun) : List RequestResult :=
  (ws.map WorkerRun.delivered).flatten

/-- The join loop of src/main.rs lines 340-345: one extra failure per
abnormally terminated worker task. -/
def joinAdjust (failed : Nat) (ws : List WorkerRun) : Nat :=
  failed + (ws.filter WorkerRun.abnormal).length

/-- Final (success, failure) counters of a run: aggregate the delivered
results, then fold the join-time failures in. -/
def finalCounts (ws : List WorkerRun) : Nat × Nat :=
  ((aggregate (allResults ws)).successful_requests,
   joinAdjust (aggregate (allResults ws)).failed_requests ws)

/-- `total_requests_executed` (src/main.rs line 348). -/
def totalExecuted (successful failed : Nat) : Nat :=
  successful + failed

/-- The RPS report (src/main.rs lines 356-360): `none` is the
"N/A" branch, taken when the elapsed seconds are not positive. -/
def reportRPS (total_requests_executed : Nat) (elapsedSecs : ℚ) : Option ℚ :=
  if elapsedSecs > 0 then
    some ((total_requests_executed : ℚ) / elapsedSecs)
  else
    none

/-- Sum of a constant base plus a unit bonus for the first `r` indices of
`0..c`. -/
theorem sum_base_bonus (b r : Nat) :
    ∀ c : Nat, ((List.range c).map (fun i => b + if i < r then 1 else 0)).sum
      = c * b + min r c := by
  intro c
  induction c with
  | zero => simp
  | succ c ih =>
    rw [List.range_succ, List.map_append, List.sum_append, ih]
    simp only [List.map_cons, List.map_nil, List.sum_cons, List.sum_nil]
    rw [Nat.succ_mul]
    by_cases h : c < r
    · rw [if_pos h]
      generalize c * b = t
      omega
    · rw [if_neg h]
      generalize c * b = t
      omega

/-- The computed shares sum to the requested total. -/
theorem distribute_sum (n c : Nat) (hc : 0 < c) : (distribute n c).sum = n := by
  have h1 : n % c < c := Nat.mod_lt _ hc
  have h2 : c * (n / c) + n % c = n := Nat.div_add_mod n c
  rw [distribute, sum_base_bonus]
  generalize hq : n / c = q at *
  generalize hr : n % c = r at *
  generalize hm : c * q = t at *
  omega

/-- Every share is the base or the base plus one. -/
theorem distribute_mem_bounds (n c : Nat) :
    ∀ a ∈ distribute n c, n / c ≤ a ∧ a ≤ n / c + 1 := by
  intro a ha
  rw [distribute, List.mem_map] at ha
  obtain ⟨i, -, rfl⟩ := ha
  by_cases h : i < n % c <;> simp [h]

/-- C1: for every total `n ≥ 1` and worker count `c ≥ 1`, the distributor
computes one share per worker by the source's formula (`n / c` plus one
for indices below `n % c`), the shares sum to exactly `n`, and any two
shares differ by at most 1. -/
theorem distribution_fair (n c : Nat) (hn : 1 ≤ n) (hc : 1 ≤ c) :
    (distribute n c).sum = n ∧
    (distribute n c).length = c ∧
    (∀ i, i < c → (distribute n c).getD i 0
        = n / c + (if i < n % c then 1 else 0)) ∧
    (∀ a ∈ distribute n c, ∀ b ∈ distribute n c, a ≤ b + 1) := by
  refine ⟨distribute_sum n c hc, by simp [distribute], ?_, ?_⟩
  · intro i hi
    rw [distribute, List.getD_eq_getElem?_getD]
    simp [List.getElem?_map, List.getElem?_range, hi]
  · intro a ha b hb
    have h1 := distribute_mem_bounds n c a ha
    have h2 := distribute_mem_bounds n c b hb
    omega

/-- Witness for C1 at the spec's own scenario `N = 10`, `C = 3`. -/
theorem distribution_fair_witness :
    ((1 : Nat) ≤ 10 ∧ (1 : Nat) ≤ 3) ∧
    ((distribute 10 3).sum = 10 ∧
     (distribute 10 3).length = 3 ∧
     (∀ i, i < 3 → (distribute 10 3).getD i 0
         = 10 / 3 + (if i < 10 % 3 then 1 else 0)) ∧
     (∀ a ∈ distribute 10 3, ∀ b ∈ distribute 10 3, a ≤ b + 1)) :=
  ⟨⟨by decide, by decide⟩, distribution_fair 10 3 (by decide) (by decide)⟩

/-- C5: for `N = 0` or `C = 0` the pre-dispatch check aborts with a
configuration error, so no worker is spawned; since every result and
every network call of a run comes from a spawned worker's loop, none
occur. -/
theorem config_error_no_work (requests concurrency : Nat)
    (h : requests = 0 ∨ concurrency = 0) :
    (∃ e, plan requests concurrency = Except.error e) ∧
    spawnedWorkers (plan requests concurrency) = [] := by
  rcases h with h | h
  · subst h
    exact ⟨⟨ConfigError.zeroRequests, rfl⟩, rfl⟩
  · subst h
    by_cases hr : requests = 0
    · subst hr
      exact ⟨⟨ConfigError.zeroRequests, rfl⟩, rfl⟩
    · refine ⟨⟨ConfigError.zeroConcurrency, ?_⟩, ?_⟩ <;>
        simp [plan, hr, spawnedWorkers]

/-- Witness for C5 at `N = 0`, `C = 3`. -/
theorem config_error_no_work_witness :
    ((0 : Nat) = 0 ∨ (3 : Nat) = 0) ∧
    ((∃ e, plan 0 3 = Except.error e) ∧ spawnedWorkers (plan 0 3) = []) :=
  ⟨Or.inl rfl, config_error_no_work 0 3 (Or.inl rfl)⟩

attribute [ext] AggState

/-- Incrementing a tally commutes over the two keys. -/
theorem bump_comm {α : Type} [DecidableEq α] (f : α → Nat) (a b : α) :
    bump (bump f a) b = bump (bump f b) a := by
  funext x
  simp only [bump]
  by_cases ha : x = a <;> by_cases hb : x = b <;>
    simp only [ha, hb, if_pos, if_neg, if_true, if_false] <;> simp_all

/-- Two aggregator iterations commute: the order in which two results
arrive does not change the state. -/
theorem aggStep_comm (s : AggState) (a b : RequestResult) :
    aggStep (aggStep s a) b = aggStep (aggStep s b) a := by
  unfold aggStep
  cases ha : a.success <;> cases hb : b.success <;>
    simp only [Bool.false_eq_true, if_true, if_false] <;>
    cases a.status_code <;> cases b.status_code <;>
    cases a.error <;> cases b.error <;>
    simp [bump_comm, Multiset.cons_swap]

/-- C8: the aggregator's final state (both counters, both tallies, and
the histogram as the multiset of samples used for percentile
computation) is the same for every arrival order of the same multiset of
results. -/
theorem aggregate_perm_invariant (l₁ l₂ : List RequestResult)
    (h : l₁.Perm l₂) : aggregate l₁ = aggregate l₂ := by
  unfold aggregate
  exact h.foldl_eq' (fun x _ y _ z => aggStep_comm z x y) initAgg

/-- Witness for C8 on two concrete arrival orders of the same results. -/
theorem aggregate_perm_invariant_witness :
    ([⟨7, true, some 200, none⟩, ⟨0, false, some 500, some "HTTP Status: 500"⟩,
        ⟨3, true, some 204, none⟩] : List RequestResult).Perm
      [⟨3, true, some 204, none⟩, ⟨7, true, some 200, none⟩,
        ⟨0, false, some 500, some "HTTP Status: 500"⟩] ∧
    aggregate [⟨7, true, some 200, none⟩, ⟨0, false, some 500, some "HTTP Status: 500"⟩,
        ⟨3, true, some 204, none⟩]
      = aggregate [⟨3, true, some 204, none⟩, ⟨7, true, some 200, none⟩,
        ⟨0, false, some 500, some "HTTP Status: 500"⟩] :=
  ⟨by decide, aggregate_perm_invariant _ _ (by decide)⟩

/-- The histogram accumulated by the receive loop from any start state:
the clamped samples of the successful results, plus what was already
there. -/
theorem foldl_histogram (l : List RequestResult) :
    ∀ s : AggState, (l.foldl aggStep s).histogram
      = ↑((l.filter (fun r => r.success)).map clampMs) + s.histogram := by
  induction l with
  | nil => intro s; simp
  | cons r l ih =>
    intro s
    rw [List.foldl_cons, ih]
    cases hr : r.success
    · simp [aggStep, hr, List.filter_cons]
    · simp only [aggStep, hr, List.filter_cons, if_true, List.map_cons]
      rw [← Multiset.cons_coe, Multiset.cons_add, Multiset.add_cons]

/-- C10: the aggregator's histogram is exactly the multiset of clamped
durations of the successful results; a failed result contributes no
sample, so mean/min/max/percentiles are computed over successful work
units only. -/
theorem histogram_successes_only (l : List RequestResult) :
    (aggregate l).histogram
      = ↑((l.filter (fun r => r.success)).map clampMs) := by
  rw [aggregate, foldl_histogram]
  simp [initAgg]

/-- C6: every sample in the final histogram is at least 1 ms, and a
successful result is always recorded — as 1 ms when its measured
duration is 0 ms, and as its measured duration otherwise. -/
theorem histogram_samples_min_one (l : List RequestResult)
    (r : RequestResult) (s : AggState) (hr : r.success = true) :
    (∀ x ∈ (aggregate l).histogram, 1 ≤ x) ∧
    (r.duration = 0 → (aggStep s r).histogram = 1 ::ₘ s.histogram) ∧
    (0 < r.duration → (aggStep s r).histogram = r.duration ::ₘ s.histogram) := by
  refine ⟨?_, ?_, ?_⟩
  · intro x hx
    rw [aggregate, foldl_histogram] at hx
    simp only [initAgg, add_zero, Multiset.mem_coe, List.mem_map] at hx
    obtain ⟨r', _, rfl⟩ := hx
    unfold clampMs
    split <;> omega
  · intro h0
    simp [aggStep, hr, clampMs, h0]
  · intro h0
    simp [aggStep, hr, clampMs, Nat.pos_iff_ne_zero.mp h0, h0]

/-- Witness for C6 on a sub-millisecond successful result. -/
theorem histogram_samples_min_one_witness :
    (⟨0, true, some 200, none⟩ : RequestResult).success = true ∧
    ((∀ x ∈ (aggregate [⟨0, true, some 200, none⟩]).histogram, 1 ≤ x) ∧
     ((⟨0, true, some 200, none⟩ : RequestResult).duration = 0 →
        (aggStep initAgg ⟨0, true, some 200, none⟩).histogram
          = 1 ::ₘ initAgg.histogram) ∧
     (0 < (⟨0, true, some 200, none⟩ : RequestResult).duration →
        (aggStep initAgg ⟨0, true, some 200, none⟩).histogram
          = (⟨0, true, some 200, none⟩ : RequestResult).duration ::ₘ
              initAgg.histogram)) :=
  ⟨rfl, histogram_samples_min_one [⟨0, true, some 200, none⟩]
    ⟨0, true, some 200, none⟩ initAgg rfl⟩

/-- Each received result advances exactly one of the two counters. -/
theorem foldl_counts (l : List RequestResult) :
    ∀ s : AggState,
      (l.foldl aggStep s).successful_requests
          + (l.foldl aggStep s).failed_requests
        = l.length + (s.successful_requests + s.failed_requests) := by
  induction l with
  | nil => intro s; simp
  | cons r l ih =>
    intro s
    rw [List.foldl_cons, ih]
    cases hr : r.success <;> simp [aggStep, hr] <;> omega

/-- Counterexample to C2: a single worker assigned 2 units that
terminates abnormally before delivering any result.  The join loop adds
exactly one failure for the whole task (src/main.rs lines 340-345), not
one per missing result, so the final counters sum to 1, not to N = 2. -/
theorem joined_total_counterexample :
    workerWF ⟨2, [], true⟩ = true ∧
    (⟨2, [], true⟩ : WorkerRun).assigned = 2 ∧
    (finalCounts [⟨2, [], true⟩]).1 + (finalCounts [⟨2, [], true⟩]).2 = 1 ∧
    ¬((finalCounts [⟨2, [], true⟩]).1 + (finalCounts [⟨2, [], true⟩]).2
        = (⟨2, [], true⟩ : WorkerRun).assigned) := by
  refine ⟨by decide, rfl, rfl, by decide⟩

/-- C2 (amended): after the aggregator loop ends and every worker is
joined, `success + failure` equals the number of delivered results plus
the number of abnormally terminated worker tasks — one extra failure per
abnormal task, however many of its results are missing.  In particular
the total equals N exactly when every worker terminates normally. -/
theorem joined_total (ws : List WorkerRun)
    (h : ∀ w ∈ ws, workerWF w = true) :
    (finalCounts ws).1 + (finalCounts ws).2
      = (allResults ws).length + (ws.filter WorkerRun.abnormal).length ∧
    ((∀ w ∈ ws, w.abnormal = false) →
      (finalCounts ws).1 + (finalCounts ws).2
        = (ws.map WorkerRun.assigned).sum) := by
  have hc : (aggregate (allResults ws)).successful_requests
      + (aggregate (allResults ws)).failed_requests
        = (allResults ws).length := by
    rw [aggregate, foldl_counts]
    simp [initAgg]
  constructor
  · unfold finalCounts joinAdjust
    omega
  · intro hn
    unfold finalCounts joinAdjust
    have hfilter : ws.filter WorkerRun.abnormal = [] := by
      rw [List.filter_eq_nil_iff]
      intro w hw
      simp [hn w hw]
    have hlen : (allResults ws).length = (ws.map WorkerRun.assigned).sum := by
      unfold allResults
      rw [List.length_flatten, List.map_map]
      congr 1
      apply List.map_congr_left
      intro w hw
      have h1 := h w hw
      simp only [workerWF, hn w hw, if_false, Bool.false_eq_true,
        decide_eq_true_eq] at h1
      simpa using h1
    rw [hfilter]
    simp only [List.length_nil]
    omega

/-- Witness for C2 (amended): one abnormal worker that delivered 1 of
its 2 results, one normal worker that delivered its single result. -/
theorem joined_total_witness :
    (∀ w ∈ ([⟨2, [⟨5, true, some 200, none⟩], true⟩,
             ⟨1, [⟨0, false, none, some "x"⟩], false⟩] : List WorkerRun),
        workerWF w = true) ∧
    ((finalCounts [⟨2, [⟨5, true, some 200, none⟩], true⟩,
        ⟨1, [⟨0, false, none, some "x"⟩], false⟩]).1
      + (finalCounts [⟨2, [⟨5, true, some 200, none⟩], true⟩,
          ⟨1, [⟨0, false, none, some "x"⟩], false⟩]).2
      = (allResults [⟨2, [⟨5, true, some 200, none⟩], true⟩,
          ⟨1, [⟨0, false, none, some "x"⟩], false⟩]).length
        + (([⟨2, [⟨5, true, some 200, none⟩], true⟩,
            ⟨1, [⟨0, false, none, some "x"⟩], false⟩] : List WorkerRun).filter
              WorkerRun.abnormal).length ∧
     ((∀ w ∈ ([⟨2, [⟨5, true, some 200, none⟩], true⟩,
          ⟨1, [⟨0, false, none, some "x"⟩], false⟩] : List WorkerRun),
            w.abnormal = false) →
        (finalCounts [⟨2, [⟨5, true, some 200, none⟩], true⟩,
            ⟨1, [⟨0, false, none, some "x"⟩], false⟩]).1
          + (finalCounts [⟨2, [⟨5, true, some 200, none⟩], true⟩,
              ⟨1, [⟨0, false, none, some "x"⟩], false⟩]).2
          = (([⟨2, [⟨5, true, some 200, none⟩], true⟩,
              ⟨1, [⟨0, false, none, some "x"⟩], false⟩] : List WorkerRun).map
                WorkerRun.assigned).sum)) :=
  ⟨by decide, joined_total _ (by decide)⟩

/-- C9: the RPS line is the unavailable branch exactly when the elapsed
wall time is zero; otherwise it reports `total_executed / elapsed` with
`total_executed = successful + failed`. -/
theorem rps_report (successful failed : Nat) (elapsedSecs : ℚ)
    (h : 0 ≤ elapsedSecs) :
    (reportRPS (totalExecuted successful failed) elapsedSecs = none ↔
        elapsedSecs = 0) ∧
    (∀ r, reportRPS (totalExecuted successful failed) elapsedSecs = some r →
        r = ((successful : ℚ) + (failed : ℚ)) / elapsedSecs) := by
  constructor
  · constructor
    · intro hnone
      by_contra hne
      have hpos : elapsedSecs > 0 := lt_of_le_of_ne h (Ne.symm hne)
      simp [reportRPS, hpos] at hnone
    · intro h0
      simp [reportRPS, h0]
  · intro r hr
    by_cases hpos : elapsedSecs > 0
    · simp only [reportRPS, hpos, if_true, Option.some.injEq] at hr
      rw [← hr]
      unfold totalExecuted
      push_cast
      ring
    · simp [reportRPS, hpos] at hr

/-- Witness for C9 at 3 executed requests over 2 seconds. -/
theorem rps_report_witness :
    (0 : ℚ) ≤ 2 ∧
    ((reportRPS (totalExecuted 2 1) 2 = none ↔ (2 : ℚ) = 0) ∧
     (∀ r, reportRPS (totalExecuted 2 1) 2 = some r →
        r = ((2 : ℚ) + (1 : ℚ)) / 2)) :=
  ⟨by norm_num, rps_report 2 1 2 (by norm_num)⟩

/-- Counterexample to C3: a concrete HTTP call whose response arrives at
5 ms and whose body drain completes at 10 ms.  The source reads the
timer at line 115, before draining the body at line 117, so the stored
duration is 5 ms — it differs from the drain-inclusive duration that
the spec-described executor (`make_http_request_specDrain`) would
store. -/
theorem drain_timer_counterexample :
    (make_http_request "GET" ⟨Except.ok 200, 5, 10, 0, 0⟩).1.duration = 5 ∧
    (make_http_request_specDrain "GET"
        ⟨Except.ok 200, 5, 10, 0, 0⟩).1.duration = 10 ∧
    (make_http_request "GET" ⟨Except.ok 200, 5, 10, 0, 0⟩).1.duration ≠
      (make_http_request_specDrain "GET"
        ⟨Except.ok 200, 5, 10, 0, 0⟩).1.duration := by
  refine ⟨by decide, by decide, by decide⟩

/-- C3 (amended): on every HTTP call that reaches a server response the
executor does fully drain the body, but the timer reading stored as the
result's duration is the one taken at response receipt, before the
drain, so the stored duration excludes the drain time. -/
theorem drain_after_timer (m : String) (env : HttpEnv) (mm : Method)
    (s : Nat) (hm : resolveMethod m = some mm)
    (ho : env.outcome = Except.ok s) :
    (make_http_request m env).1.duration = env.tResp ∧
    (make_http_request m env).2.bodyDrained = true := by
  unfold make_http_request
  rw [hm, ho]
  exact ⟨rfl, rfl⟩

/-- Witness for C3 (amended) at a concrete GET call. -/
theorem drain_after_timer_witness :
    resolveMethod "GET" = some Method.GET ∧
    (⟨Except.ok 200, 5, 10, 0, 0⟩ : HttpEnv).outcome = Except.ok 200 ∧
    ((make_http_request "GET" ⟨Except.ok 200, 5, 10, 0, 0⟩).1.duration
        = (⟨Except.ok 200, 5, 10, 0, 0⟩ : HttpEnv).tResp ∧
     (make_http_request "GET" ⟨Except.ok 200, 5, 10, 0, 0⟩).2.bodyDrained
        = true) :=
  ⟨by decide, rfl,
    drain_after_timer "GET" ⟨Except.ok 200, 5, 10, 0, 0⟩ Method.GET 200
      (by decide) rfl⟩

/-- C4: when the configured method string decodes to no supported HTTP
method and is not the WebSocket selector, every work unit is dispatched
to the HTTP executor and returns an immediate failure: no success, no
status code, the fixed unsupported-method message, and no network call
attempted.  All fields but the timer reading are constants of the
configured method string, so the outcome is fixed by the configuration,
identically for every work unit of the run. -/
theorem unsupported_method_immediate_failure (m : String)
    (ws_message : Option String) (ws_duration : Option Nat)
    (henv : HttpEnv) (wenv : WsEnv)
    (hm : resolveMethod m = none) (hws : isWebsocket m = false) :
    (runWorkUnit m ws_message ws_duration henv wenv).1.success = false ∧
    (runWorkUnit m ws_message ws_duration henv wenv).1.status_code = none ∧
    (runWorkUnit m ws_message ws_duration henv wenv).1.error
      = some ("不支持的HTTP方法: " ++ m) ∧
    (runWorkUnit m ws_message ws_duration henv wenv).2.networkAttempted
      = false := by
  unfold runWorkUnit
  rw [hws]
  simp only [Bool.false_eq_true, if_false]
  unfold make_http_request
  rw [hm]
  exact ⟨rfl, rfl, rfl, rfl⟩

/-- Witness for C4 at the unrecognized method string "FOO". -/
theorem unsupported_method_immediate_failure_witness :
    resolveMethod "FOO" = none ∧ isWebsocket "FOO" = false ∧
    ((runWorkUnit "FOO" none none ⟨Except.ok 200, 1, 2, 3, 4⟩
        ⟨Except.ok (), Except.ok (), Except.ok (), 0, 0, 0, 0, 0⟩).1.success
          = false ∧
     (runWorkUnit "FOO" none none ⟨Except.ok 200, 1, 2, 3, 4⟩
        ⟨Except.ok (), Except.ok (), Except.ok (), 0, 0, 0, 0, 0⟩).1.status_code
          = none ∧
     (runWorkUnit "FOO" none none ⟨Except.ok 200, 1, 2, 3, 4⟩
        ⟨Except.ok (), Except.ok (), Except.ok (), 0, 0, 0, 0, 0⟩).1.error
          = some ("不支持的HTTP方法: " ++ "FOO") ∧
     (runWorkUnit "FOO" none none ⟨Except.ok 200, 1, 2, 3, 4⟩
        ⟨Except.ok (), Except.ok (), Except.ok (), 0, 0, 0, 0, 0⟩).2.networkAttempted
          = false) :=
  ⟨by decide, by decide,
    unsupported_method_immediate_failure "FOO" none none
      ⟨Except.ok 200, 1, 2, 3, 4⟩
      ⟨Except.ok (), Except.ok (), Except.ok (), 0, 0, 0, 0, 0⟩
      (by decide) (by decide)⟩

/-- C7: every result of either executor satisfies the result invariant:
a successful result carries no error message; the status code is present
exactly on HTTP attempts that reached a server response (present even on
a non-2xx failure, carrying that response's status), and absent on HTTP
transport failures, unsupported methods, and every WebSocket result. -/
theorem result_invariant :
    (∀ (m : String) (env : HttpEnv),
      ((make_http_request m env).1.success = true →
        (make_http_request m env).1.error = none) ∧
      ((make_http_request m env).1.status_code = none ↔
        resolveMethod m = none ∨ ∃ e, env.outcome = Except.error e) ∧
      (∀ s, env.outcome = Except.ok s → ∀ mm, resolveMethod m = some mm →
        (make_http_request m env).1.status_code = some s)) ∧
    (∀ (message : Option String) (duration_secs : Option Nat) (env : WsEnv),
      ((make_websocket_request message duration_secs env).1.success = true →
        (make_websocket_request message duration_secs env).1.error = none) ∧
      (make_websocket_request message duration_secs env).1.status_code
        = none) := by
  constructor
  · intro m env
    unfold make_http_request
    cases hm : resolveMethod m with
    | none =>
      refine ⟨fun h => absurd h (by simp), by simp, ?_⟩
      intro s _ mm hmm
      exact absurd hmm (by simp)
    | some mm =>
      cases ho : env.outcome with
      | ok st =>
        refine ⟨?_, by simp, fun s hs mm' _ => by
          injection hs with hs
          simp [hs]⟩
        intro h
        simp only at h ⊢
        simp [h]
      | error e =>
        refine ⟨fun h => absurd h (by simp), by simp, ?_⟩
        intro s hs mm' _
        exact absurd hs (by simp)
  · intro message duration_secs env
    unfold make_websocket_request
    cases env.urlParse with
    | error e => exact ⟨fun h => absurd h (by simp), rfl⟩
    | ok u =>
      cases env.connect with
      | error e => exact ⟨fun h => absurd h (by simp), rfl⟩
      | ok c =>
        cases message with
        | none =>
          cases duration_secs with
          | none => exact ⟨fun _ => rfl, rfl⟩
          | some d => exact ⟨fun _ => rfl, rfl⟩
        | some msg =>
          cases env.sendOutcome with
          | error e => exact ⟨fun h => absurd h (by simp), rfl⟩
          | ok o =>
            cases duration_secs with
            | none => exact ⟨fun _ => rfl, rfl⟩
            | some d => exact ⟨fun _ => rfl, rfl⟩

/-- Witness for C7: a 200 HTTP response and a plain WebSocket session. -/
theorem result_invariant_witness :
    (make_http_request "GET" ⟨Except.ok 200, 1, 2, 3, 4⟩).1.error = none ∧
    (make_websocket_request none none
        ⟨Except.ok (), Except.ok (), Except.ok (), 0, 0, 0, 0, 0⟩).1.status_code
      = none :=
  ⟨(result_invariant.1 "GET" ⟨Except.ok 200, 1, 2, 3, 4⟩).1 (by decide),
   (result_invariant.2 none none
      ⟨Except.ok (), Except.ok (), Except.ok (), 0, 0, 0, 0, 0⟩).2⟩
